import Mathlib

/-!
A verification development for the GraphGallery ChebyNet adapter pipeline.

The development shallowly embeds the data-transform → tensor-construction →
batch-sequencing pipeline of the repository:

* the Chebyshev basis transform (registry key `cheby_basis`),
* the transform registry (`gf.get`),
* the PyTorch ChebyNet trainer (`data_step`, `model_step`, `train_loader`
  from `graphgallery/gallery/nodeclas/pytorch/chebynet.py`),
* the TensorFlow gallery ChebyNet (`process_step`, `build`, `train_sequence`
  from `graphgallery/gallery/gallery_model/tensorflow/chebynet.py`),
* the supervised TensorFlow ChebyNet (`preprocess`, `build`, `train_sequence`
  from `graphgallery/nn/models/supervised/chebynet.py`),
* the SSGConv layer (`graphgallery/nn/layers/pytorch/conv/ssgc.py`).

Matrices are embedded as `Matrix (Fin N) (Fin N) ℚ` (adjacency) and
`Matrix (Fin N) (Fin F) ℚ` (attributes); exact rational arithmetic stands
in for floating point, as usual for a shallow embedding.  The entrywise
inverse square roots of node degrees used by the symmetric normalization
are irrational in general, so the normalization vector `D^(-1/2)` is kept
as an explicit parameter `dinvs` of the embedding rather than computed.
Backend tensor conversion (`gf.astensors`) is the identity on this
representation, since the claims under study concern shapes, arities,
caching and algebra, not the device placement that `astensors` adds.
-/

namespace GraphGallery

/-- Square rational matrices of size `N×N`: the embedding of (dense or
sparse) adjacency-shaped scipy matrices and their derived bases. -/
abbrev Mat (N : ℕ) := Matrix (Fin N) (Fin N) ℚ

/-- Attribute-shaped matrices `N×F`. -/
abbrev AttrMat (N F : ℕ) := Matrix (Fin N) (Fin F) ℚ

/-- Modelled from the spec: the error taxonomy of §7 of the specification
(`ConfigurationError`, `ModelNotFoundError`, `UnknownTransformError`, …).
The concrete exception classes live outside `src/`; the Python code under
`src/` surfaces the configuration check through an `assert` statement and
the `gf.equal()` decorator, which the specification names
`ConfigurationError`. -/
inductive GalleryError where
  | ConfigurationError
  | ModelNotFoundError (name backend : String)
  | UnknownTransformError (name : String)
  | NotImplementedError
  | NotBuiltError
  | AssertionError
deriving DecidableEq, Repr

/-- Modelled from the spec: the normalized Laplacian
`L = I - D^(-1/2) A D^(-1/2)`.  `dinvs` is the diagonal of `D^(-1/2)`
(inverse square roots of node degrees), kept as a parameter because it is
irrational in general. -/
def normalizedLaplacian {N : ℕ} (A : Mat N) (dinvs : Fin N → ℚ) : Mat N :=
  1 - Matrix.diagonal dinvs * A * Matrix.diagonal dinvs

/-- Modelled from the spec: the scaled Laplacian `L̃ = (2/λmax)·L − I`.
`lam` is the (possibly approximated) largest eigenvalue `λmax`; the spec
records that fixing `λmax = 2` is a documented approximation, so the value
is kept as a parameter here. -/
def scaled_laplacian {N : ℕ} (A : Mat N) (dinvs : Fin N → ℚ) (lam : ℚ) :
    Mat N :=
  (2 / lam) • normalizedLaplacian A dinvs - 1

/-- Modelled from the spec: the Chebyshev recurrence on a scaled Laplacian
`L`: `T₀ = I`, `T₁ = L`, `T_(k+2) = 2·L·T_(k+1) − T_k`. -/
def chebyT {N : ℕ} (L : Mat N) : ℕ → Mat N
  | 0 => 1
  | 1 => L
  | (k + 2) => (2 : ℚ) • (L * chebyT L (k + 1)) - chebyT L k

/-- Modelled from the spec: the Chebyshev basis transform
(`chebyshev_polynomials`, registry key `cheby_basis`, whose implementation
lives outside `src/`): given adjacency matrix `A`, degree normalization
`dinvs`, eigenvalue estimate `lam` and order `K`, return the list
`[T₀, …, T_K]` of Chebyshev polynomials of the scaled Laplacian. -/
def cheby_basis {N : ℕ} (A : Mat N) (dinvs : Fin N → ℚ) (lam : ℚ) (K : ℕ) :
    List (Mat N) :=
  (List.range (K + 1)).map (chebyT (scaled_laplacian A dinvs lam))

lemma cheby_basis_length {N : ℕ} (A : Mat N) (dinvs : Fin N → ℚ) (lam : ℚ)
    (K : ℕ) : (cheby_basis A dinvs lam K).length = K + 1 := by
  simp [cheby_basis]

lemma cheby_basis_getElem {N : ℕ} (A : Mat N) (dinvs : Fin N → ℚ) (lam : ℚ)
    (K k : ℕ) (hk : k ≤ K) :
    (cheby_basis A dinvs lam K)[k]? =
      some (chebyT (scaled_laplacian A dinvs lam) k) := by
  simp [cheby_basis, List.getElem?_map, List.getElem?_range,
    Nat.lt_succ_of_le hk]

/-- A transform instance, as returned by the transform registry `gf.get`.
Modelled from the spec: `gf.get` and the transform classes live outside
`src/`; the spec says a transform "stores its parameters (e.g., polynomial
order K) for introspection".  `empty` is the identity transform returned
for `None`; `cheby_basis` stores the polynomial order `K`
(`src/graphgallery/gallery/gallery_model/tensorflow/chebynet.py` reads it
back as `self.adj_transform.order`). -/
inductive Transform where
  | empty
  | cheby_basis (order : ℕ)
deriving DecidableEq, Repr

/-- The stored polynomial order exposed for introspection
(`self.adj_transform.order`). -/
def Transform.order : Transform → ℕ
  | .empty => 0
  | .cheby_basis k => k

/-- Applying a transform to an adjacency matrix.  The identity transform
returns the matrix itself (a one-element family); the Chebyshev transform
returns the basis `[T₀ … T_K]`. -/
def Transform.adjCall {N : ℕ} (t : Transform) (dinvs : Fin N → ℚ) (lam : ℚ)
    (A : Mat N) : List (Mat N) :=
  match t with
  | .empty => [A]
  | .cheby_basis k => GraphGallery.cheby_basis A dinvs lam k

/-- Applying a transform to the attribute matrix.  The adapters under
`src/` use `attr_transform = None`, the identity transform. -/
def Transform.attrCall {N F : ℕ} (t : Transform) (X : AttrMat N F) :
    AttrMat N F :=
  match t with
  | .empty => X
  | .cheby_basis _ => X

/-- Modelled from the spec: the transform registry lookup
`gf.get(name_or_none, params)`.  `none` passes through as the identity
transform; `"cheby_basis"` resolves to the Chebyshev transform with the
given order (default 2); an unknown name fails with
`UnknownTransformError`. -/
def gf_get (arg : Option (String × Option ℕ)) : Except GalleryError Transform :=
  match arg with
  | none => .ok .empty
  | some (name, p) =>
      if name = "cheby_basis" then .ok (.cheby_basis (p.getD 2))
      else .error (.UnknownTransformError name)

/-- An ambient mutable world (global interpreter state) threaded through
transform application.  The scipy arithmetic performed by the transforms
reads and writes no global state, which the embedding reflects by passing
the world through untouched; theorem `C6_transform_deterministic` states
the resulting determinism and absence of side effects. -/
abbrev World := ℕ

/-- Transform application together with the ambient world: the embedding
of calling `get(name)(matrix)` in a stateful interpreter. -/
def Transform.adjCallS {N : ℕ} (t : Transform) (dinvs : Fin N → ℚ) (lam : ℚ)
    (A : Mat N) (w : World) : List (Mat N) × World :=
  (t.adjCall dinvs lam A, w)

/-- The Graph container: adjacency matrix, node attribute matrix, label
vector, and the derived class count (`num_node_classes`); the attribute
dimensionality `num_node_attrs` is the type index `F` and the node count
is `N`. -/
structure Graph (N F : ℕ) where
  adj_matrix : Mat N
  attr_matrix : AttrMat N F
  label : Fin N → ℕ
  num_node_classes : ℕ

/-- Modelled from the spec: the process-wide model registry, a finite map
from (architecture name, backend) to a constructor, populated at import
time.  The registered pairs under `src/` are the PyTorch networks listed
in `src/graphgallery/nn/models/pytorch/__init__.py` plus the TensorFlow
ChebyNet imported by the TensorFlow gallery adapter. -/
def modelRegistry : List (String × String) :=
  [("GAT", "pytorch"), ("GCN", "pytorch"), ("MedianGCN", "pytorch"),
   ("TrimmedGCN", "pytorch"), ("FastGCN", "pytorch"), ("DAGNN", "pytorch"),
   ("SimPGCN", "pytorch"), ("MLP", "pytorch"), ("TAGCN", "pytorch"),
   ("APPNP", "pytorch"), ("LabelPropagation", "pytorch"),
   ("GraphSAGE", "pytorch"), ("AGNN", "pytorch"), ("GraphMLP", "pytorch"),
   ("LATGCN", "pytorch"), ("DGAT", "pytorch"), ("Node2GridsCNN", "pytorch"),
   ("GAE", "pytorch"), ("VGAE", "pytorch"), ("RobustGCN", "pytorch"),
   ("ChebyNet", "tensorflow")]

/-- Modelled from the spec: `get_model(name, backend) -> Constructor`,
failing with `ModelNotFoundError` when the (name, backend) pair is
unregistered.  The returned constructor handle is embedded as the
registered pair itself. -/
def get_model (registry : List (String × String)) (name backend : String) :
    Except GalleryError (String × String) :=
  if (name, backend) ∈ registry then .ok (name, backend)
  else .error (.ModelNotFoundError name backend)

/-- The per-trainer Cache populated by `data_step`: the converted attribute
tensor `X` and the family `A` of adjacency basis tensors
(`self.register_cache(X=X, A=A)`). -/
structure Cache (N F : ℕ) where
  X : AttrMat N F
  A : List (Mat N)

/-- The PyTorch ChebyNet trainer state
(`src/graphgallery/gallery/nodeclas/pytorch/chebynet.py`): the bound graph
and the optional cache (absent until `data_step` runs). -/
structure PTTrainer (N F : ℕ) where
  graph : Graph N F
  cache : Option (Cache N F)

/-- `ChebyNet.data_step` of the PyTorch trainer: apply the adjacency
transform `("cheby_basis", K)` (default `K = 2`) and the identity
attribute transform (`attr_transform = None`) to the bound graph's
matrices, convert to tensors, and register them in the cache.  `dinvs` and
`lam` are the normalization and `λmax` parameters of the Chebyshev
transform. -/
def PT_data_step {N F : ℕ} (t : PTTrainer N F) (adjK : ℕ)
    (dinvs : Fin N → ℚ) (lam : ℚ) : PTTrainer N F :=
  { t with
    cache := some
      { X := Transform.attrCall .empty t.graph.attr_matrix,
        A := Transform.adjCall (.cheby_basis adjK) dinvs lam
               t.graph.adj_matrix } }

/-- A constructed PyTorch ChebyNet network: the hyperparameters
`model_step` passes to the constructor returned by
`get_model("ChebyNet", backend)`. -/
structure TorchChebyNet where
  in_features : ℕ
  out_features : ℕ
  hids : List ℕ
  acts : List String
  K : ℕ
deriving DecidableEq, Repr

/-- `ChebyNet.model_step` of the PyTorch trainer: read `K` off the cached
adjacency family (`K = len(self.cache.A)`), look the architecture up in
the model registry, and construct the network with the graph's attribute
and class counts.  A missing cache is the lifecycle violation the spec
calls `NotBuiltError`. -/
def PT_model_step {N F : ℕ} (registry : List (String × String))
    (backend : String) (t : PTTrainer N F) (hids : List ℕ)
    (acts : List String) : Except GalleryError TorchChebyNet :=
  match t.cache with
  | none => .error .NotBuiltError
  | some c =>
      match get_model registry ("ChebyNet") backend with
      | .error e => .error e
      | .ok _ => .ok ⟨F, t.graph.num_node_classes, hids, acts, c.A.length⟩

/-- A backend tensor fed to a model: the attribute tensor, one adjacency
basis tensor, or an index tensor. -/
inductive TensorInput (N F : ℕ) where
  | feat (x : AttrMat N F)
  | adjmat (a : Mat N)
  | idx (ix : List (Fin N))

/-- Modelled from the spec: the full-batch sequence
(`FullBatchSequence` / `FullBatchNodeSequence`, whose implementation lives
outside `src/`): it wraps the full cached tensors, a label slice and the
output index set, and yields exactly one item per pass. -/
structure FullBatchSequence (N F : ℕ) where
  inputs : List (TensorInput N F)
  labels : List ℕ
  out_index : List (Fin N)

/-- The items yielded by one pass over a full-batch sequence: a single
(inputs-with-index, labels) pair. -/
def FullBatchSequence.items {N F : ℕ} (s : FullBatchSequence N F) :
    List ((List (TensorInput N F) × List (Fin N)) × List ℕ) :=
  [((s.inputs, s.out_index), s.labels)]

/-- `ChebyNet.train_loader` of the PyTorch trainer: slice the graph's
label vector at `index`, wrap the cached tensors `[X, *A]`, the labels and
`out_index = index` in a `FullBatchSequence`.  The trainer state is
returned alongside to make explicit that the call reads the cache without
modifying or consuming it. -/
def PT_train_loader {N F : ℕ} (t : PTTrainer N F) (index : List (Fin N)) :
    Option (FullBatchSequence N F) × PTTrainer N F :=
  (t.cache.map fun c =>
     { inputs := TensorInput.feat c.X :: c.A.map TensorInput.adjmat,
       labels := index.map t.graph.label,
       out_index := index },
   t)

/-- The TensorFlow gallery ChebyNet adapter state
(`src/graphgallery/gallery/gallery_model/tensorflow/chebynet.py`): the
bound graph, the resolved transforms (stored by `__init__` via `gf.get`),
the active backend, and the tensor fields filled by `process_step`. -/
structure TFGalleryChebyNet (N F : ℕ) where
  graph : Graph N F
  adj_transform : Transform
  attr_transform : Transform
  backend : String
  feature_inputs : Option (AttrMat N F)
  structure_inputs : Option (List (Mat N))

/-- `ChebyNet.process_step` of the TensorFlow gallery adapter: apply the
stored transforms to the graph's matrices and store the converted
tensors. -/
def TFGalleryChebyNet.process_step {N F : ℕ} (dinvs : Fin N → ℚ) (lam : ℚ)
    (t : TFGalleryChebyNet N F) : TFGalleryChebyNet N F :=
  { t with
    feature_inputs := some (t.attr_transform.attrCall t.graph.attr_matrix),
    structure_inputs :=
      some (t.adj_transform.adjCall dinvs lam t.graph.adj_matrix) }

/-- A constructed TensorFlow ChebyNet network: the hyperparameters the
gallery adapter's `build` passes to the `tfChebyNet` constructor,
including `order = self.adj_transform.order`. -/
structure TFChebyNetNetwork where
  in_features : ℕ
  out_features : ℕ
  hiddens : List ℕ
  activations : List String
  order : ℕ
deriving DecidableEq, Repr

/-- `ChebyNet.build` of the TensorFlow gallery adapter: the `gf.equal()`
decorator first checks that all per-layer argument lists have equal
length (the spec's `ConfigurationError`), then the TensorFlow branch
constructs the network with `order = self.adj_transform.order`; any other
backend raises `NotImplementedError`. -/
def TFGalleryChebyNet.build {N F : ℕ} (t : TFGalleryChebyNet N F)
    (hiddens : List ℕ) (activations : List String) :
    Except GalleryError TFChebyNetNetwork :=
  if hiddens.length = activations.length then
    if t.backend = "tensorflow" then
      .ok ⟨F, t.graph.num_node_classes, hiddens, activations,
           t.adj_transform.order⟩
    else .error .NotImplementedError
  else .error .ConfigurationError

/-- `ChebyNet.train_sequence` of the TensorFlow gallery adapter: slice the
graph's label vector at `index` and wrap
`[self.feature_inputs, *self.structure_inputs, index]` together with the
labels in a `FullBatchNodeSequence`.  The tensor fields must have been
populated by `process_step`; the adapter state is returned alongside to
make explicit that the call reads the cached tensors without modifying or
consuming them. -/
def TFGalleryChebyNet.train_sequence {N F : ℕ} (t : TFGalleryChebyNet N F)
    (index : List (Fin N)) :
    Option (FullBatchSequence N F) × TFGalleryChebyNet N F :=
  (match t.feature_inputs, t.structure_inputs with
   | some fx, some sx =>
       some { inputs := TensorInput.feat fx ::
                (sx.map TensorInput.adjmat ++ [TensorInput.idx index]),
              labels := index.map t.graph.label,
              out_index := index }
   | _, _ => none,
   t)

/-- A Keras `Input` placeholder created by the supervised model's `build`
(`src/graphgallery/nn/models/supervised/chebynet.py`): the feature
placeholder, the `i`-th adjacency placeholder `adj_matrix_i`, or the index
placeholder. -/
inductive Placeholder where
  | features
  | adj_matrix (i : ℕ)
  | index
deriving DecidableEq, Repr

/-- Whether a placeholder is one of the adjacency inputs. -/
def Placeholder.isAdj : Placeholder → Bool
  | .adj_matrix _ => true
  | _ => false

/-- A compiled Keras model handle: the ordered list of its input
placeholders, `Model(inputs=[x, *adj, index], ...)`. -/
structure KerasModel where
  inputs : List Placeholder
deriving DecidableEq, Repr

/-- The input placeholders the supervised `build` creates for a given
Chebyshev order: one feature input, `order + 1` adjacency inputs
(`for i in range(self.order + 1)`), and one index input. -/
def sup_build_inputs (order : ℕ) : List Placeholder :=
  Placeholder.features ::
    ((List.range (order + 1)).map Placeholder.adj_matrix ++
      [Placeholder.index])

/-- `ChebyNet.build` of the supervised TensorFlow model: the `assert`
comparing `len(hiddens)` with `len(activations)` runs first (the spec's
`ConfigurationError`); only then does the `tf.device` block allocate the
`Input` placeholder tensors and compile the model.  The first component
counts the placeholder tensors allocated during the call, so a failed
check allocates none. -/
def sup_build (order : ℕ) (hiddens : List ℕ) (activations : List String) :
    ℕ × Except GalleryError KerasModel :=
  if hiddens.length = activations.length then
    ((sup_build_inputs order).length, .ok ⟨sup_build_inputs order⟩)
  else (0, .error .ConfigurationError)

/-- The supervised TensorFlow ChebyNet state after `preprocess`: the
configured order, the converted feature tensor `tf_x`, the family of
adjacency tensors `tf_adj`, and the label vector. -/
structure SupChebyNet (N F : ℕ) where
  order : ℕ
  tf_x : AttrMat N F
  tf_adj : List (Mat N)
  labels : Fin N → ℕ

/-- `ChebyNet.preprocess` of the supervised TensorFlow model: when
`self.norm_adj_rate is not None` (default `-0.5`), expand the adjacency
matrix into the Chebyshev polynomial family
`chebyshev_polynomials(adj, rate, order)`; when it is `None`, the guard is
skipped and the single adjacency matrix is kept.  The features are
normalized with the configured `norm_x_fn` and both are converted to
tensors. -/
def sup_preprocess {N F : ℕ} (order : ℕ) (norm_adj_rate : Option ℚ)
    (dinvs : Fin N → ℚ) (lam : ℚ) (normx : AttrMat N F → AttrMat N F)
    (adj : Mat N) (x : AttrMat N F) (labels : Fin N → ℕ) :
    SupChebyNet N F :=
  { order := order,
    tf_x := normx x,
    tf_adj :=
      match norm_adj_rate with
      | some _ => cheby_basis adj dinvs lam order
      | none => [adj],
    labels := labels }

/-- `ChebyNet.train_sequence` of the supervised TensorFlow model: one
full-batch item whose inputs are `[self.tf_x, *self.tf_adj, index]` and
whose labels are `self.labels[index]`. -/
def sup_train_sequence {N F : ℕ} (s : SupChebyNet N F)
    (index : List (Fin N)) : FullBatchSequence N F :=
  { inputs := TensorInput.feat s.tf_x ::
      (s.tf_adj.map TensorInput.adjmat ++ [TensorInput.idx index]),
    labels := index.map s.labels,
    out_index := index }

/-- The SSGConv layer state
(`src/graphgallery/nn/layers/pytorch/conv/ssgc.py`): the stored
hyperparameters `K` and `alpha`. -/
structure SSGConv where
  K : ℕ
  alpha : ℚ
deriving DecidableEq, Repr

/-- `SSGConv.__init__`: `assert K > 0`, then store `K` and `alpha`. -/
def SSGConv.init (K : ℕ) (alpha : ℚ) : Except GalleryError SSGConv :=
  if 0 < K then .ok ⟨K, alpha⟩ else .error .AssertionError

/-- One iteration of the loop body of `SSGConv.forward` on the pair
`(x, x_out)`: `x = (1 - alpha) * spmm(adj, x); x_out = x_out + x`. -/
def SSGConv.step {n f : ℕ} (alpha : ℚ) (adj : Matrix (Fin n) (Fin n) ℚ)
    (p : Matrix (Fin n) (Fin f) ℚ × Matrix (Fin n) (Fin f) ℚ) :
    Matrix (Fin n) (Fin f) ℚ × Matrix (Fin n) (Fin f) ℚ :=
  ((1 - alpha) • (adj * p.1), p.2 + (1 - alpha) • (adj * p.1))

/-- `SSGConv.forward(x, adj)`: starting from `x_in = x_out = x`, run the
loop body `K` times, then `x_out = x_out / K; x_out += alpha * x_in`. -/
def SSGConv.forward {n f : ℕ} (m : SSGConv) (x : Matrix (Fin n) (Fin f) ℚ)
    (adj : Matrix (Fin n) (Fin n) ℚ) : Matrix (Fin n) (Fin f) ℚ :=
  ((m.K : ℚ))⁻¹ • ((SSGConv.step m.alpha adj)^[m.K] (x, x)).2 + m.alpha • x

/-- C1: for every symmetric adjacency matrix `A` of size `N×N` and every
order `K ≥ 1`, the Chebyshev basis transform returns exactly `K+1` matrices
`[T₀ … T_K]`, each of shape `N×N` (enforced by the type `Mat N`), where
`T₀` is the identity matrix, `T₁` is the scaled Laplacian
`L̃ = (2/λmax)·L − I`, and `T_k = 2·L̃·T_(k-1) − T_(k-2)` for `k = 2..K`;
in particular for `K = 2` it returns exactly 3 matrices. -/
theorem C1_cheby_basis_spec (N K : ℕ) (A : Mat N) (dinvs : Fin N → ℚ)
    (lam : ℚ) (hsym : A.IsSymm) (hK : 1 ≤ K) :
    (cheby_basis A dinvs lam K).length = K + 1
    ∧ (cheby_basis A dinvs lam K)[0]? = some (1 : Mat N)
    ∧ (cheby_basis A dinvs lam K)[1]? = some (scaled_laplacian A dinvs lam)
    ∧ (∀ k a b c, 2 ≤ k → k ≤ K →
        (cheby_basis A dinvs lam K)[k - 2]? = some a →
        (cheby_basis A dinvs lam K)[k - 1]? = some b →
        (cheby_basis A dinvs lam K)[k]? = some c →
        c = (2 : ℚ) • (scaled_laplacian A dinvs lam * b) - a)
    ∧ (K = 2 → (cheby_basis A dinvs lam K).length = 3) := by
  refine ⟨cheby_basis_length A dinvs lam K, ?_, ?_, ?_, ?_⟩
  · rw [cheby_basis_getElem A dinvs lam K 0 (Nat.zero_le K)]
    simp [chebyT]
  · rw [cheby_basis_getElem A dinvs lam K 1 hK]
    simp [chebyT]
  · intro k a b c h2 hkK ha hb hc
    obtain ⟨j, rfl⟩ : ∃ j, k = j + 2 := ⟨k - 2, by omega⟩
    rw [cheby_basis_getElem A dinvs lam K (j + 2 - 2) (by omega)] at ha
    rw [cheby_basis_getElem A dinvs lam K (j + 2 - 1) (by omega)] at hb
    rw [cheby_basis_getElem A dinvs lam K (j + 2) hkK] at hc
    have hj2 : j + 2 - 2 = j := by omega
    have hj1 : j + 2 - 1 = j + 1 := by omega
    rw [hj2] at ha
    rw [hj1] at hb
    have ha' := Option.some.inj ha
    have hb' := Option.some.inj hb
    have hc' := Option.some.inj hc
    rw [← ha', ← hb', ← hc']
    simp [chebyT]
  · intro hK2
    subst hK2
    exact cheby_basis_length A dinvs lam 2

/-- Witness for C1 at the concrete input `N = 2`, `A = 1` (symmetric),
`dinvs = 1`, `λmax = 2`, `K = 2`. -/
theorem C1_cheby_basis_spec_witness :
    (1 : Mat 2).IsSymm ∧ (1 : ℕ) ≤ 2 ∧
    ((cheby_basis (1 : Mat 2) (fun _ => 1) 2 2).length = 2 + 1
     ∧ (cheby_basis (1 : Mat 2) (fun _ => 1) 2 2)[0]? = some (1 : Mat 2)
     ∧ (cheby_basis (1 : Mat 2) (fun _ => 1) 2 2)[1]? =
         some (scaled_laplacian (1 : Mat 2) (fun _ => 1) 2)
     ∧ (∀ k a b c, 2 ≤ k → k ≤ 2 →
         (cheby_basis (1 : Mat 2) (fun _ => 1) 2 2)[k - 2]? = some a →
         (cheby_basis (1 : Mat 2) (fun _ => 1) 2 2)[k - 1]? = some b →
         (cheby_basis (1 : Mat 2) (fun _ => 1) 2 2)[k]? = some c →
         c = (2 : ℚ) • (scaled_laplacian (1 : Mat 2) (fun _ => 1) 2 * b) - a)
     ∧ (2 = 2 → (cheby_basis (1 : Mat 2) (fun _ => 1) 2 2).length = 3)) :=
  ⟨Matrix.isSymm_one, by norm_num,
    C1_cheby_basis_spec 2 2 1 (fun _ => 1) 2 Matrix.isSymm_one (by norm_num)⟩

/-- C2: for every call to `build` where the per-layer lists `hiddens` and
`activations` differ in length, the call fails with the spec's
`ConfigurationError` (the supervised model's `assert`, the gallery
adapter's `gf.equal()` decorator), and the validation runs before any
tensor is allocated: the failing supervised `build` allocates zero
placeholder tensors, and the failing gallery `build` fails for every
adapter state before reaching its backend branch. -/
theorem C2_build_mismatch_fails_fast (N F order : ℕ) (hiddens : List ℕ)
    (activations : List String)
    (h : hiddens.length ≠ activations.length) :
    (sup_build order hiddens activations).2 = .error .ConfigurationError
    ∧ (sup_build order hiddens activations).1 = 0
    ∧ (∀ t : TFGalleryChebyNet N F,
        t.build hiddens activations = .error .ConfigurationError) := by
  refine ⟨?_, ?_, ?_⟩
  · simp [sup_build, h]
  · simp [sup_build, h]
  · intro t
    simp [TFGalleryChebyNet.build, h]

/-- Witness for C2 at `hiddens = [16, 8]`, `activations = ["relu"]`,
`order = 2`. -/
theorem C2_build_mismatch_fails_fast_witness :
    ([16, 8] : List ℕ).length ≠ (["relu"] : List String).length
    ∧ ((sup_build 2 [16, 8] ["relu"]).2 = .error .ConfigurationError
       ∧ (sup_build 2 [16, 8] ["relu"]).1 = 0
       ∧ (∀ t : TFGalleryChebyNet 2 1,
           t.build [16, 8] ["relu"] = .error .ConfigurationError)) :=
  ⟨by decide, C2_build_mismatch_fails_fast 2 1 2 [16, 8] ["relu"] (by decide)⟩

/-- C3: every (architecture name, backend) pair that is not registered in
the model registry makes `get_model` fail with `ModelNotFoundError`
carrying the offending pair. -/
theorem C3_get_model_unregistered (registry : List (String × String))
    (name backend : String) (h : (name, backend) ∉ registry) :
    get_model registry name backend =
      .error (.ModelNotFoundError name backend) := by
  simp [get_model, h]

/-- Witness for C3: requesting ChebyNet under an unregistered backend. -/
theorem C3_get_model_unregistered_witness :
    (("ChebyNet", "unregistered_backend") ∉ modelRegistry)
    ∧ get_model modelRegistry ("ChebyNet") ("unregistered_backend") =
        .error (.ModelNotFoundError ("ChebyNet") ("unregistered_backend")) :=
  ⟨by decide,
   C3_get_model_unregistered modelRegistry ("ChebyNet")
     ("unregistered_backend") (by decide)⟩

/-- C4: with a populated cache, the full-batch loader — `train_loader` of
the PyTorch trainer and `train_sequence` of the TensorFlow gallery
adapter — yields exactly one item whose inputs are the full cached tensors
(attribute tensor and every cached adjacency basis tensor) together with
the index set, and whose labels are the graph's label vector sliced at
those indices in order; each call leaves the trainer state (hence the
cache) unchanged, so a repeated call reproduces the same sequence. -/
theorem C4_train_loader_full_batch (N F : ℕ) (t : PTTrainer N F)
    (c : Cache N F) (u : TFGalleryChebyNet N F) (fx : AttrMat N F)
    (sx : List (Mat N)) (index : List (Fin N)) (hc : t.cache = some c)
    (hfx : u.feature_inputs = some fx)
    (hsx : u.structure_inputs = some sx) :
    (∃ s, (PT_train_loader t index).1 = some s
      ∧ s.items.length = 1
      ∧ s.items =
          [((TensorInput.feat c.X :: c.A.map TensorInput.adjmat, index),
            index.map t.graph.label)]
      ∧ (PT_train_loader t index).2 = t
      ∧ PT_train_loader ((PT_train_loader t index).2) index =
          PT_train_loader t index)
    ∧ (∃ s, (u.train_sequence index).1 = some s
      ∧ s.items.length = 1
      ∧ s.items =
          [((TensorInput.feat fx ::
               (sx.map TensorInput.adjmat ++ [TensorInput.idx index]),
             index), index.map u.graph.label)]
      ∧ (u.train_sequence index).2 = u
      ∧ TFGalleryChebyNet.train_sequence ((u.train_sequence index).2)
          index = u.train_sequence index) := by
  constructor
  · refine ⟨{ inputs := TensorInput.feat c.X :: c.A.map TensorInput.adjmat,
              labels := index.map t.graph.label,
              out_index := index }, ?_, rfl, rfl, rfl, rfl⟩
    simp [PT_train_loader, hc]
  · refine ⟨{ inputs := TensorInput.feat fx ::
                (sx.map TensorInput.adjmat ++ [TensorInput.idx index]),
              labels := index.map u.graph.label,
              out_index := index }, ?_, rfl, rfl, rfl, rfl⟩
    simp [TFGalleryChebyNet.train_sequence, hfx, hsx]

/-- Witness for C4 at a concrete one-node PyTorch trainer with a populated
cache and a concrete one-node TensorFlow gallery adapter with populated
tensor fields. -/
theorem C4_train_loader_full_batch_witness :
    (PTTrainer.cache ⟨⟨1, 0, fun _ => 0, 2⟩, some ⟨0, [1]⟩⟩ =
      some (⟨0, [1]⟩ : Cache 1 1))
    ∧ (TFGalleryChebyNet.feature_inputs
         (⟨⟨1, 0, fun _ => 0, 2⟩, .cheby_basis 2, .empty, "tensorflow",
           some 0, some [1]⟩ : TFGalleryChebyNet 1 1) =
        some (0 : AttrMat 1 1))
    ∧ (TFGalleryChebyNet.structure_inputs
         (⟨⟨1, 0, fun _ => 0, 2⟩, .cheby_basis 2, .empty, "tensorflow",
           some 0, some [1]⟩ : TFGalleryChebyNet 1 1) =
        some ([1] : List (Mat 1)))
    ∧ ((∃ s, (PT_train_loader (⟨⟨1, 0, fun _ => 0, 2⟩, some ⟨0, [1]⟩⟩ :
               PTTrainer 1 1) [0]).1 = some s
        ∧ s.items.length = 1
        ∧ s.items =
            [((TensorInput.feat (0 : AttrMat 1 1) ::
                 ([1] : List (Mat 1)).map TensorInput.adjmat, [0]),
              ([0] : List (Fin 1)).map
                (Graph.label (⟨1, 0, fun _ => 0, 2⟩ : Graph 1 1)))]
        ∧ (PT_train_loader (⟨⟨1, 0, fun _ => 0, 2⟩, some ⟨0, [1]⟩⟩ :
             PTTrainer 1 1) [0]).2 = ⟨⟨1, 0, fun _ => 0, 2⟩, some ⟨0, [1]⟩⟩
        ∧ PT_train_loader
            ((PT_train_loader (⟨⟨1, 0, fun _ => 0, 2⟩, some ⟨0, [1]⟩⟩ :
               PTTrainer 1 1) [0]).2) [0] =
            PT_train_loader (⟨⟨1, 0, fun _ => 0, 2⟩, some ⟨0, [1]⟩⟩ :
               PTTrainer 1 1) [0])
       ∧ (∃ s, (TFGalleryChebyNet.train_sequence
             (⟨⟨1, 0, fun _ => 0, 2⟩, .cheby_basis 2, .empty, "tensorflow",
               some 0, some [1]⟩ : TFGalleryChebyNet 1 1) [0]).1 = some s
        ∧ s.items.length = 1
        ∧ s.items =
            [((TensorInput.feat (0 : AttrMat 1 1) ::
                 (([1] : List (Mat 1)).map TensorInput.adjmat ++
                   [TensorInput.idx [0]]), [0]),
              ([0] : List (Fin 1)).map
                (Graph.label (⟨1, 0, fun _ => 0, 2⟩ : Graph 1 1)))]
        ∧ (TFGalleryChebyNet.train_sequence
             (⟨⟨1, 0, fun _ => 0, 2⟩, .cheby_basis 2, .empty, "tensorflow",
               some 0, some [1]⟩ : TFGalleryChebyNet 1 1) [0]).2 =
            ⟨⟨1, 0, fun _ => 0, 2⟩, .cheby_basis 2, .empty, "tensorflow",
              some 0, some [1]⟩
        ∧ TFGalleryChebyNet.train_sequence
            ((TFGalleryChebyNet.train_sequence
               (⟨⟨1, 0, fun _ => 0, 2⟩, .cheby_basis 2, .empty,
                 "tensorflow", some 0, some [1]⟩ :
                 TFGalleryChebyNet 1 1) [0]).2) [0] =
            TFGalleryChebyNet.train_sequence
              (⟨⟨1, 0, fun _ => 0, 2⟩, .cheby_basis 2, .empty,
                "tensorflow", some 0, some [1]⟩ :
                TFGalleryChebyNet 1 1) [0])) :=
  ⟨rfl, rfl, rfl, C4_train_loader_full_batch 1 1
     (⟨⟨1, 0, fun _ => 0, 2⟩, some ⟨0, [1]⟩⟩ : PTTrainer 1 1)
     (⟨0, [1]⟩ : Cache 1 1)
     (⟨⟨1, 0, fun _ => 0, 2⟩, .cheby_basis 2, .empty, "tensorflow",
       some 0, some [1]⟩ : TFGalleryChebyNet 1 1)
     (0 : AttrMat 1 1) ([1] : List (Mat 1)) [0] rfl rfl rfl⟩

/-- C5: running the data step (`data_step` of the PyTorch trainer,
`process_step` of the TensorFlow gallery adapter) leaves the bound graph —
its adjacency matrix, attribute matrix and label vector — unchanged: the
transforms only populate the cache/tensor fields with newly derived
matrices. -/
theorem C5_data_step_preserves_graph (N F adjK : ℕ) (t : PTTrainer N F)
    (u : TFGalleryChebyNet N F) (dinvs : Fin N → ℚ) (lam : ℚ) :
    (PT_data_step t adjK dinvs lam).graph = t.graph
    ∧ (PT_data_step t adjK dinvs lam).graph.adj_matrix = t.graph.adj_matrix
    ∧ (PT_data_step t adjK dinvs lam).graph.attr_matrix =
        t.graph.attr_matrix
    ∧ (PT_data_step t adjK dinvs lam).graph.label = t.graph.label
    ∧ (TFGalleryChebyNet.process_step dinvs lam u).graph = u.graph :=
  ⟨rfl, rfl, rfl, rfl, rfl⟩

/-- C6: every transform resolved through the registry is deterministic and
side-effect-free: its output does not depend on the ambient world, the
world is returned unchanged, and a second call on the same input produces
bit-identical output. -/
theorem C6_transform_deterministic (N : ℕ) (arg : Option (String × Option ℕ))
    (tr : Transform) (dinvs : Fin N → ℚ) (lam : ℚ) (A : Mat N)
    (w w' : World) (h : gf_get arg = .ok tr) :
    (tr.adjCallS dinvs lam A w).1 = (tr.adjCallS dinvs lam A w').1
    ∧ (tr.adjCallS dinvs lam A w).2 = w
    ∧ (tr.adjCallS dinvs lam A ((tr.adjCallS dinvs lam A w).2)).1 =
        (tr.adjCallS dinvs lam A w).1 :=
  ⟨rfl, rfl, rfl⟩

/-- Witness for C6 at the Chebyshev transform of order 2 on the identity
matrix, from two distinct ambient worlds. -/
theorem C6_transform_deterministic_witness :
    gf_get (some ("cheby_basis", some 2)) = .ok (Transform.cheby_basis 2)
    ∧ ((Transform.adjCallS (.cheby_basis 2) (fun _ => 1) 2 (1 : Mat 1)
          0).1 =
        (Transform.adjCallS (.cheby_basis 2) (fun _ => 1) 2 (1 : Mat 1)
          5).1
       ∧ (Transform.adjCallS (.cheby_basis 2) (fun _ => 1) 2 (1 : Mat 1)
            0).2 = 0
       ∧ (Transform.adjCallS (.cheby_basis 2) (fun _ => 1) 2 (1 : Mat 1)
            ((Transform.adjCallS (.cheby_basis 2) (fun _ => 1) 2
               (1 : Mat 1) 0).2)).1 =
          (Transform.adjCallS (.cheby_basis 2) (fun _ => 1) 2 (1 : Mat 1)
            0).1) :=
  ⟨rfl, C6_transform_deterministic 1 (some ("cheby_basis", some 2))
    (.cheby_basis 2) (fun _ => 1) 2 (1 : Mat 1) 0 5 rfl⟩

/-- C7: a transform obtained from the registry with explicit parameters
stores them for introspection: resolving `("cheby_basis", K)` yields a
transform whose `order` attribute equals `K`, and the gallery adapter's
`build` passes exactly `self.adj_transform.order` to the network
constructor. -/
theorem C7_transform_exposes_order (N F K : ℕ) (t : TFGalleryChebyNet N F)
    (tr : Transform) (hiddens : List ℕ) (activations : List String)
    (hget : gf_get (some ("cheby_basis", some K)) = .ok tr)
    (htr : t.adj_transform = tr) (hbk : t.backend = "tensorflow")
    (hlen : hiddens.length = activations.length) :
    tr.order = K
    ∧ t.build hiddens activations =
        .ok ⟨F, t.graph.num_node_classes, hiddens, activations, K⟩ := by
  have htrK : tr = Transform.cheby_basis K := by
    simp [gf_get] at hget
    exact hget.symm
  subst htrK
  refine ⟨rfl, ?_⟩
  simp [TFGalleryChebyNet.build, hlen, hbk, htr, Transform.order]

/-- Witness for C7 at order `K = 3` on a concrete two-node adapter
state. -/
theorem C7_transform_exposes_order_witness :
    gf_get (some ("cheby_basis", some 3)) = .ok (Transform.cheby_basis 3)
    ∧ (TFGalleryChebyNet.adj_transform
         (⟨⟨1, 0, fun _ => 0, 2⟩, .cheby_basis 3, .empty, "tensorflow",
           none, none⟩ : TFGalleryChebyNet 2 1) = Transform.cheby_basis 3)
    ∧ (TFGalleryChebyNet.backend
         (⟨⟨1, 0, fun _ => 0, 2⟩, .cheby_basis 3, .empty, "tensorflow",
           none, none⟩ : TFGalleryChebyNet 2 1) = "tensorflow")
    ∧ ([16] : List ℕ).length = (["relu"] : List String).length
    ∧ ((Transform.cheby_basis 3).order = 3
       ∧ TFGalleryChebyNet.build
           (⟨⟨1, 0, fun _ => 0, 2⟩, .cheby_basis 3, .empty, "tensorflow",
             none, none⟩ : TFGalleryChebyNet 2 1) [16] ["relu"] =
          .ok ⟨1, 2, [16], ["relu"], 3⟩) :=
  ⟨rfl, rfl, rfl, rfl,
   C7_transform_exposes_order 2 1 3
     ⟨⟨1, 0, fun _ => 0, 2⟩, .cheby_basis 3, .empty, "tensorflow",
      none, none⟩
     (.cheby_basis 3) [16] ["relu"] rfl rfl rfl rfl⟩

/-- C8: in the PyTorch trainer, the `K` hyperparameter `model_step` passes
to the network constructor always equals `len(cache.A)`; after `data_step`
with a `cheby_basis` transform of order `adjK` that length is `adjK + 1`,
so with the default order 2 the network receives `K = 3`. -/
theorem C8_model_step_K_is_len_cache (N F adjK : ℕ) (t : PTTrainer N F)
    (dinvs : Fin N → ℚ) (lam : ℚ) (registry : List (String × String))
    (backend : String) (hids : List ℕ) (acts : List String)
    (hreg : ("ChebyNet", backend) ∈ registry) :
    (∀ (u : PTTrainer N F) (c : Cache N F) m, u.cache = some c →
        PT_model_step registry backend u hids acts = .ok m →
        m.K = c.A.length)
    ∧ (∀ c, (PT_data_step t adjK dinvs lam).cache = some c →
        c.A.length = adjK + 1)
    ∧ (∃ m, PT_model_step registry backend (PT_data_step t 2 dinvs lam)
          hids acts = .ok m ∧ m.K = 3) := by
  refine ⟨?_, ?_, ?_⟩
  · intro u c m hc hm
    cases hget : get_model registry ("ChebyNet") backend with
    | error e => simp [PT_model_step, hc, hget] at hm
    | ok p =>
        simp [PT_model_step, hc, hget] at hm
        rw [← hm]
  · intro c hc
    have hcv := Option.some.inj hc.symm
    rw [hcv]
    simp [PT_data_step, Transform.adjCall, cheby_basis_length]
  · refine ⟨⟨F, t.graph.num_node_classes, hids, acts, 3⟩, ?_, rfl⟩
    simp [PT_model_step, PT_data_step, get_model, hreg, Transform.adjCall,
      cheby_basis_length]

/-- Witness for C8 at a concrete one-node trainer with the registry pair
`("ChebyNet", "pytorch")`. -/
theorem C8_model_step_K_is_len_cache_witness :
    (("ChebyNet", "pytorch") ∈ [("ChebyNet", "pytorch")])
    ∧ ((∀ (u : PTTrainer 1 1) (c : Cache 1 1) m, u.cache = some c →
          PT_model_step [("ChebyNet", "pytorch")] ("pytorch") u [16]
            ["relu"] = .ok m →
          m.K = c.A.length)
       ∧ (∀ c, (PT_data_step (⟨⟨1, 0, fun _ => 0, 2⟩, none⟩ :
             PTTrainer 1 1) 2 (fun _ => 1) 2).cache = some c →
           c.A.length = 2 + 1)
       ∧ (∃ m, PT_model_step [("ChebyNet", "pytorch")] ("pytorch")
             (PT_data_step (⟨⟨1, 0, fun _ => 0, 2⟩, none⟩ :
               PTTrainer 1 1) 2 (fun _ => 1) 2) [16] ["relu"] = .ok m
           ∧ m.K = 3)) :=
  ⟨by decide,
   C8_model_step_K_is_len_cache 1 1 2 ⟨⟨1, 0, fun _ => 0, 2⟩, none⟩
     (fun _ => 1) 2 [("ChebyNet", "pytorch")] ("pytorch") [16] ["relu"]
     (by decide)⟩

lemma filter_isAdj_map (l : List ℕ) :
    (l.map Placeholder.adj_matrix).filter Placeholder.isAdj =
      l.map Placeholder.adj_matrix := by
  induction l with
  | nil => rfl
  | cons a l ih => simp [Placeholder.isAdj, ih]

/-- C10 counterexample: the arity match is not unconditional.  With the
legal configuration `norm_adj_rate = None`, the
`if self.norm_adj_rate is not None` guard in `preprocess` skips the
Chebyshev expansion, so at `order = 2` preprocess yields a single
adjacency tensor (not `order + 1 = 3`) while `build` still creates
`order + 1` adjacency placeholders, and the batch arity 3 differs from the
model input arity 5. -/
theorem C10_sequence_model_arity_match_cex :
    (sup_preprocess 2 none (fun _ => 1) 2 id (1 : Mat 1) (0 : AttrMat 1 1)
       (fun _ => 0)).tf_adj.length = 1
    ∧ ((sup_build_inputs 2).filter Placeholder.isAdj).length = 3
    ∧ (sup_train_sequence
         (sup_preprocess 2 none (fun _ => 1) 2 id (1 : Mat 1)
           (0 : AttrMat 1 1) (fun _ => 0)) [0]).inputs.length = 3
    ∧ (sup_build_inputs 2).length = 5
    ∧ ¬ ((sup_preprocess 2 none (fun _ => 1) 2 id (1 : Mat 1)
           (0 : AttrMat 1 1) (fun _ => 0)).tf_adj.length = 2 + 1)
    ∧ ¬ ((sup_train_sequence
           (sup_preprocess 2 none (fun _ => 1) 2 id (1 : Mat 1)
             (0 : AttrMat 1 1) (fun _ => 0)) [0]).inputs.length =
          (sup_build_inputs 2).length) :=
  ⟨rfl, rfl, rfl, rfl, by decide, by decide⟩

/-- C10 (amended): in the supervised TensorFlow ChebyNet with
`norm_adj_rate` set (not `None`; the default is `-0.5`), `preprocess`
produces `order + 1` adjacency tensors and `build` creates `order + 1`
adjacency input placeholders for the same configured order, so the input
arity of every batch produced by `train_sequence` (one feature tensor,
`order + 1` adjacency tensors, one index tensor) matches the arity of the
compiled model's inputs. -/
theorem C10_sequence_model_arity_match (N F order : ℕ)
    (norm_adj_rate : Option ℚ) (dinvs : Fin N → ℚ) (lam : ℚ)
    (normx : AttrMat N F → AttrMat N F) (adj : Mat N) (x : AttrMat N F)
    (labels : Fin N → ℕ) (index : List (Fin N)) (hiddens : List ℕ)
    (activations : List String)
    (hrate : norm_adj_rate ≠ none)
    (hlen : hiddens.length = activations.length) :
    (sup_preprocess order norm_adj_rate dinvs lam normx adj x
       labels).tf_adj.length = order + 1
    ∧ ((sup_build_inputs order).filter Placeholder.isAdj).length =
        order + 1
    ∧ (sup_build order hiddens activations).2 = .ok ⟨sup_build_inputs order⟩
    ∧ (sup_train_sequence
         (sup_preprocess order norm_adj_rate dinvs lam normx adj x labels)
         index).inputs.length = (sup_build_inputs order).length
    ∧ (sup_build_inputs order).length = 1 + (order + 1) + 1 := by
  obtain ⟨rate, rfl⟩ := Option.ne_none_iff_exists'.mp hrate
  refine ⟨?_, ?_, ?_, ?_, ?_⟩
  · simp [sup_preprocess, cheby_basis_length]
  · simp [sup_build_inputs, List.filter_append, filter_isAdj_map,
      Placeholder.isAdj]
  · simp [sup_build, hlen]
  · simp [sup_train_sequence, sup_preprocess, sup_build_inputs,
      cheby_basis_length]
  · simp [sup_build_inputs]
    omega

/-- Witness for C10 at `order = 2`, the default `norm_adj_rate = -0.5`, on
a concrete one-node model. -/
theorem C10_sequence_model_arity_match_witness :
    (some (-(1 / 2)) : Option ℚ) ≠ none
    ∧ ([16] : List ℕ).length = (["relu"] : List String).length
    ∧ ((sup_preprocess 2 (some (-(1 / 2))) (fun _ => 1) 2 id (1 : Mat 1)
          (0 : AttrMat 1 1) (fun _ => 0)).tf_adj.length = 2 + 1
       ∧ ((sup_build_inputs 2).filter Placeholder.isAdj).length = 2 + 1
       ∧ (sup_build 2 [16] ["relu"]).2 = .ok ⟨sup_build_inputs 2⟩
       ∧ (sup_train_sequence
            (sup_preprocess 2 (some (-(1 / 2))) (fun _ => 1) 2 id
              (1 : Mat 1) (0 : AttrMat 1 1) (fun _ => 0))
            [0]).inputs.length = (sup_build_inputs 2).length
       ∧ (sup_build_inputs 2).length = 1 + (2 + 1) + 1) :=
  ⟨by decide, rfl,
   C10_sequence_model_arity_match 1 1 2 (some (-(1 / 2))) (fun _ => 1) 2
     id 1 0 (fun _ => 0) [0] [16] ["relu"] (by decide) rfl⟩

lemma SSGConv.loop_closed_form {n f : ℕ} (alpha : ℚ)
    (adj : Matrix (Fin n) (Fin n) ℚ) (x : Matrix (Fin n) (Fin f) ℚ)
    (j : ℕ) :
    (SSGConv.step alpha adj)^[j] (x, x) =
      ((1 - alpha) ^ j • (adj ^ j * x),
       ∑ i ∈ Finset.range (j + 1), (1 - alpha) ^ i • (adj ^ i * x)) := by
  induction j with
  | zero => simp
  | succ j ih =>
      rw [Function.iterate_succ_apply', ih]
      simp only [SSGConv.step, Prod.mk.injEq]
      constructor
      · rw [Matrix.mul_smul, smul_smul, ← pow_succ', ← Matrix.mul_assoc,
          ← pow_succ']
      · have hterm : (1 - alpha) • (adj * ((1 - alpha) ^ j • (adj ^ j * x)))
            = (1 - alpha) ^ (j + 1) • (adj ^ (j + 1) * x) := by
          rw [Matrix.mul_smul, smul_smul, ← pow_succ', ← Matrix.mul_assoc,
            ← pow_succ']
        rw [hterm, ← Finset.sum_range_succ]

/-- C9: the SSGConv layer requires `K > 0` at construction (construction
succeeds exactly when `K > 0`), and its forward pass computes exactly
`alpha·x + (1/K)·(x + Σ_(k=1..K) (1−alpha)^k·(adj^k·x))`; the forward pass
is a pure function of the stored `(K, alpha)` and its inputs, so it
mutates neither `x`, `adj` nor the layer state. -/
theorem C9_ssgconv_forward (n f K : ℕ) (alpha : ℚ)
    (x : Matrix (Fin n) (Fin f) ℚ) (adj : Matrix (Fin n) (Fin n) ℚ)
    (hK : 0 < K) :
    (∀ K', (∃ m, SSGConv.init K' alpha = .ok m) ↔ 0 < K')
    ∧ SSGConv.init K alpha = .ok ⟨K, alpha⟩
    ∧ SSGConv.forward ⟨K, alpha⟩ x adj =
        alpha • x + (K : ℚ)⁻¹ •
          (x + ∑ k ∈ Finset.Icc 1 K, (1 - alpha) ^ k • (adj ^ k * x)) := by
  refine ⟨?_, ?_, ?_⟩
  · intro K'
    by_cases h : 0 < K' <;> simp [SSGConv.init, h]
  · simp [SSGConv.init, hK]
  · rw [SSGConv.forward, SSGConv.loop_closed_form]
    have hs : ∑ k ∈ Finset.Icc 1 K, (1 - alpha) ^ k • (adj ^ k * x)
        = ∑ i ∈ Finset.range K, (1 - alpha) ^ (i + 1) •
            (adj ^ (i + 1) * x) := by
      rw [← Nat.Ico_succ_right, Finset.sum_Ico_eq_sum_range]
      simp [Nat.add_comm]
    rw [hs, Finset.sum_range_succ']
    have g0 : (1 - alpha) ^ 0 • (adj ^ 0 * x) = x := by simp
    rw [g0, smul_add, smul_add]
    abel

/-- Witness for C9 at `n = f = 1`, `K = 1`, `alpha = 1/2`, `x = !![2]`,
`adj = !![3]`. -/
theorem C9_ssgconv_forward_witness :
    0 < 1
    ∧ ((∀ K', (∃ m, SSGConv.init K' (1 / 2) = .ok m) ↔ 0 < K')
       ∧ SSGConv.init 1 (1 / 2) = .ok ⟨1, 1 / 2⟩
       ∧ SSGConv.forward ⟨1, 1 / 2⟩ (!![2] : Matrix (Fin 1) (Fin 1) ℚ)
           (!![3] : Matrix (Fin 1) (Fin 1) ℚ) =
          (1 / 2 : ℚ) • (!![2] : Matrix (Fin 1) (Fin 1) ℚ) +
            ((1 : ℕ) : ℚ)⁻¹ •
              ((!![2] : Matrix (Fin 1) (Fin 1) ℚ) +
                ∑ k ∈ Finset.Icc 1 1,
                  (1 - 1 / 2 : ℚ) ^ k •
                    ((!![3] : Matrix (Fin 1) (Fin 1) ℚ) ^ k * !![2]))) :=
  ⟨by decide,
   C9_ssgconv_forward 1 1 1 (1 / 2) !![2] !![3] (by decide)⟩

end GraphGallery
